import Mathlib

/-!
A shallow embedding of the AI-flashcards workflow from `AIFlashcardsPage.svelte`
and `SourceSelector.svelte`: the card and session data model, the bridge-adapter
pending-completion slot with its 120-second timeout, and the page handlers
`handleGenerate`, `handleCardUpdate`, `handleImport`, `approveAll`, `rejectAll`.
-/

/-- `SimpleCard` from `AIFlashcardsPage.svelte`: one generated flashcard
candidate. `status` is the wire numeral: 0 = Pending, 1 = Approved,
2 = Rejected. -/
structure SimpleCard where
  id : String
  cardType : Nat
  front : String
  back : String
  suggestedTags : List String
  status : Nat
deriving DecidableEq, Repr

/-- The workflow step (`type Step = "source" | "generating" | "review" |
"importing" | "done"`). -/
inductive Step
  | source
  | generating
  | review
  | importing
  | done
deriving DecidableEq, Repr

/-- The mutable component state of `AIFlashcardsPage.svelte`: `currentStep`,
`cards`, `sourceName`, `sourceText`, `sourceUrl`, `selectedDeckId`, `error`,
`importResult` (the pair `(imported, duplicates)`). -/
structure PageState where
  currentStep : Step
  cards : List SimpleCard
  sourceName : String
  sourceText : String
  sourceUrl : String
  selectedDeckId : Int
  error : Option String
  importResult : Option (Nat × Nat)
deriving DecidableEq, Repr

/-- The request payload of a `saveSession` RPC. -/
structure SaveRequest where
  sourceName : String
  sourceText : String
  cards : List SimpleCard
deriving DecidableEq, Repr

/-- The backend RPCs the handlers issue: `saveSession`, `clearSession`,
`importApprovedCards`. -/
inductive RpcCall
  | save (req : SaveRequest)
  | clear
  | importCards (cards : List SimpleCard) (targetDeckId : Int) (additionalTags : List String)
deriving DecidableEq, Repr

/-- The settlement of the generation promise returned by
`generateFlashcardsViaBackend`: resolved with a card list or rejected with an
error message. -/
inductive GenOutcome
  | success (cards : List SimpleCard)
  | failure (msg : String)
deriving DecidableEq, Repr

/-- The reactive derived value `approvedCount = cards.filter((c) => c.status
=== 1).length`. -/
def approvedCount (st : PageState) : Nat :=
  (st.cards.filter (fun c => c.status == 1)).length

/-- The argument passed to `window._aiFlashcardsOnGenerate` by the Python
layer: `{ cards?: SimpleCard[]; error?: string }`. -/
structure CompletionMsg where
  error : Option String
  cards : Option (List SimpleCard)
deriving DecidableEq, Repr

/-- What the synchronous `bridgeCommand` response callback observes:
`JSON.parse` succeeded and `result.error` was set; parse succeeded with no
error (acknowledgement, `status: "generating"`); or `JSON.parse` threw. -/
inductive BridgeResponse
  | parsedError (msg : String)
  | parsedAck
  | parseFailure (msg : String)
deriving DecidableEq, Repr

/-- The bridge-adapter state: whether `pendingGenerateResolve` and
`pendingGenerateReject` are non-null, and the settlement of the current
generation promise (`none` while still pending; a promise settles at most
once, first settlement wins). -/
structure AdapterState where
  resolveSet : Bool
  rejectSet : Bool
  settled : Option GenOutcome
deriving DecidableEq, Repr

/-- Settling the promise: a no-op when the promise is already settled
(JavaScript promise semantics). -/
def settle (st : AdapterState) (o : GenOutcome) : AdapterState :=
  match st.settled with
  | none => { st with settled := some o }
  | some _ => st

/-- The events that touch the pending slot: the promise executor of
`generateFlashcardsViaBackend` running (`invoke`), the synchronous
`bridgeCommand` response callback, the out-of-band
`window._aiFlashcardsOnGenerate` completion callback, and the 120-second
`setTimeout` firing. -/
inductive AdapterEvent
  | invoke
  | response (r : BridgeResponse)
  | callback (msg : CompletionMsg)
  | timeoutFire
deriving DecidableEq, Repr

/-- The timeout duration of the `setTimeout` in
`generateFlashcardsViaBackend`, in milliseconds. -/
def generateTimeoutMillis : Nat := 120000

/-- One adapter step, transcribed from `AIFlashcardsPage.svelte`:
`invoke` sets both slot halves (`pendingGenerateResolve = resolve;
pendingGenerateReject = reject`) for a fresh promise; the response callback
with `result.error` (or a parse failure) nulls both halves and rejects;
an acknowledgement changes nothing; `_aiFlashcardsOnGenerate` calls
`pendingGenerateReject?.(...)` or `pendingGenerateResolve?.(result.cards ||
[])` and then nulls both halves; the timeout, when `pendingGenerateResolve`
is still set, nulls both halves and rejects with the timeout error. -/
def adapterStep (st : AdapterState) (e : AdapterEvent) : AdapterState :=
  match e with
  | .invoke => { resolveSet := true, rejectSet := true, settled := none }
  | .response (.parsedError m) =>
      settle { st with resolveSet := false, rejectSet := false } (.failure m)
  | .response .parsedAck => st
  | .response (.parseFailure m) =>
      settle { st with resolveSet := false, rejectSet := false } (.failure m)
  | .callback msg =>
      let st1 :=
        match msg.error with
        | some m => if st.rejectSet then settle st (.failure m) else st
        | none => if st.resolveSet then settle st (.success (msg.cards.getD [])) else st
      { st1 with resolveSet := false, rejectSet := false }
  | .timeoutFire =>
      if st.resolveSet then
        settle { st with resolveSet := false, rejectSet := false }
          (.failure "Generation timed out after 2 minutes")
      else st

/-- Before any invocation both slot variables are `null`. -/
def adapterInit : AdapterState :=
  { resolveSet := false, rejectSet := false, settled := none }

/-- Running a sequence of adapter events from the initial state. -/
def runAdapter (evs : List AdapterEvent) : AdapterState :=
  evs.foldl adapterStep adapterInit

/-- JavaScript's `String.prototype.trim`: strip leading and trailing
whitespace. -/
def jsTrim (s : String) : String :=
  ⟨((s.data.dropWhile Char.isWhitespace).reverse.dropWhile Char.isWhitespace).reverse⟩

/-- `handleGenerate` from `SourceSelector.svelte`: an empty-after-trim text
sets an inline error and returns without dispatching; otherwise the
`generate` event is dispatched with `text: textInput, name: sourceName ||
"Untitled", url: urlInput`. -/
inductive SubmitResult
  | rejected (inlineError : String)
  | dispatched (text name url : String)
deriving DecidableEq, Repr

/-- The guard-and-dispatch logic of `SourceSelector.handleGenerate`. -/
def sourceSelectorGenerate (textInput sourceName urlInput : String) : SubmitResult :=
  if jsTrim textInput = "" then
    SubmitResult.rejected "Please provide text to generate flashcards from."
  else
    SubmitResult.dispatched textInput
      (if sourceName = "" then "Untitled" else sourceName) urlInput

/-- The synchronous prefix of `AIFlashcardsPage.handleGenerate`: record the
submitted source fields, move to `generating`, clear the error. -/
def handleGenerateEntry (st : PageState) (text name url : String) : PageState :=
  { st with sourceText := text, sourceName := name, sourceUrl := url,
            currentStep := Step.generating, error := none }

/-- `AIFlashcardsPage.handleGenerate`, with the awaited generation promise's
settlement passed explicitly: on success the returned cards replace `cards`,
the step becomes `review` and `saveSession({sourceName: name, sourceText:
text, cards})` is issued; on failure the error message is stored and the step
falls back to `source`. -/
def handleGenerate (st : PageState) (text name url : String) (outcome : GenOutcome) :
    PageState × List RpcCall :=
  let st1 := handleGenerateEntry st text name url
  match outcome with
  | .success gen =>
      ({ st1 with cards := gen, currentStep := Step.review },
       [RpcCall.save ⟨name, text, gen⟩])
  | .failure e =>
      ({ st1 with error := some e, currentStep := Step.source }, [])

/-- Submitting the source form: the `SourceSelector` guard, then (only if an
event was dispatched) the page's `handleGenerate` entry. Returns the page
state and the selector's inline error, if any. -/
def submitGeneration (st : PageState) (textInput nameInput urlInput : String) :
    PageState × Option String :=
  match sourceSelectorGenerate textInput nameInput urlInput with
  | SubmitResult.rejected msg => (st, some msg)
  | SubmitResult.dispatched t n u => (handleGenerateEntry st t n u, none)

/-- The props handed back to `SourceSelector` when the page re-renders in
step `source`. -/
structure SelectorState where
  textInput : String
  urlInput : String
  sourceName : String
deriving DecidableEq, Repr

/-- `SourceSelector`'s initialisation from its props (`textInput =
initialText`, `urlInput = initialUrl`, `sourceName = initialSourceName`). -/
def initSourceSelector (initialText initialSourceName initialUrl : String) : SelectorState :=
  { textInput := initialText, urlInput := initialUrl, sourceName := initialSourceName }

/-- `handleCardUpdate`: map over `cards`, replacing the status of every card
whose `id` equals `cardId`, then auto-save. -/
def handleCardUpdate (st : PageState) (cardId : String) (status : Nat) :
    PageState × List RpcCall :=
  let newCards :=
    st.cards.map (fun card => if card.id = cardId then { card with status := status } else card)
  ({ st with cards := newCards },
   [RpcCall.save ⟨st.sourceName, st.sourceText, newCards⟩])

/-- `approveAll`: set every card's status to 1, then auto-save. -/
def approveAll (st : PageState) : PageState × List RpcCall :=
  let newCards := st.cards.map (fun card => { card with status := 1 })
  ({ st with cards := newCards },
   [RpcCall.save ⟨st.sourceName, st.sourceText, newCards⟩])

/-- `rejectAll`: set every card's status to 2, then auto-save. -/
def rejectAll (st : PageState) : PageState × List RpcCall :=
  let newCards := st.cards.map (fun card => { card with status := 2 })
  ({ st with cards := newCards },
   [RpcCall.save ⟨st.sourceName, st.sourceText, newCards⟩])

/-- The result of the `importApprovedCards` RPC. -/
structure ImportRpcResult where
  importedCount : Nat
  duplicateCount : Nat
deriving DecidableEq, Repr

/-- The synchronous prefix of `handleImport`: with zero approved cards set the
error and return (`none` = no RPC issued); otherwise move to `importing`,
clear the error and compute the approved subset to send. -/
def handleImportEntry (st : PageState) : PageState × Option (List SimpleCard) :=
  if approvedCount st = 0 then
    ({ st with error := some "No cards have been approved yet." }, none)
  else
    ({ st with currentStep := Step.importing, error := none },
     some (st.cards.filter (fun c => c.status == 1)))

/-- `handleImport`, with the awaited `importApprovedCards` result passed
explicitly: on success store `importResult`, issue `clearSession` and move to
`done`; on failure store the error and fall back to `review`. The returned
list holds the RPCs issued, in order. -/
def handleImport (st : PageState) (result : Except String ImportRpcResult) :
    PageState × List RpcCall :=
  match handleImportEntry st with
  | (stRefused, none) => (stRefused, [])
  | (st1, some issued) =>
      match result with
      | Except.ok r =>
          ({ st1 with importResult := some (r.importedCount, r.duplicateCount),
                      currentStep := Step.done },
           [RpcCall.importCards issued st.selectedDeckId [], RpcCall.clear])
      | Except.error e =>
          ({ st1 with error := some e, currentStep := Step.review },
           [RpcCall.importCards issued st.selectedDeckId []])

/-- Modelled from the spec: the external generation worker (the Python layer,
which is not under `src/`) produces the successful outcome's card sequence,
"each initialized to `status = Pending`" (wire value 0). -/
def specGeneratedCards (gen : List SimpleCard) : Prop :=
  ∀ c ∈ gen, c.status = 0

/-- A concrete empty page state, used to instantiate theorems. -/
def samplePage : PageState :=
  { currentStep := Step.source, cards := [], sourceName := "", sourceText := "",
    sourceUrl := "", selectedDeckId := 1, error := none, importResult := none }

/-- A concrete card with the given id and status. -/
def sampleCard (i : String) (s : Nat) : SimpleCard :=
  { id := i, cardType := 0, front := "f", back := "b",
    suggestedTags := [], status := s }

/-- A review-step page whose only card is still pending. -/
def reviewPageNoApproved : PageState :=
  { samplePage with currentStep := Step.review, cards := [sampleCard "1" 0] }

/-- A review-step page with one approved and one pending card. -/
def reviewPageApproved : PageState :=
  { samplePage with currentStep := Step.review, cards := [sampleCard "1" 1, sampleCard "2" 0] }

/-- One adapter step keeps the two slot halves paired: they are nulled and set
together. -/
theorem adapterStep_pair (st : AdapterState) (e : AdapterEvent)
    (h : st.resolveSet = st.rejectSet) :
    (adapterStep st e).resolveSet = (adapterStep st e).rejectSet := by
  obtain ⟨r, j, s⟩ := st
  cases e with
  | invoke => rfl
  | response rsp => cases rsp <;> cases s <;> simp_all [adapterStep, settle]
  | callback msg => cases hm : msg.error <;> simp [adapterStep, hm]
  | timeoutFire =>
      simp only at h
      subst h
      cases r <;> cases s <;> simp [adapterStep, settle]

/-- Every run of the adapter keeps the two slot halves paired. -/
theorem runAdapter_pair_aux (evs : List AdapterEvent) :
    ∀ st : AdapterState, st.resolveSet = st.rejectSet →
      (evs.foldl adapterStep st).resolveSet = (evs.foldl adapterStep st).rejectSet := by
  induction evs with
  | nil => intro st h; exact h
  | cons e tl ih => intro st h; exact ih _ (adapterStep_pair st e h)

/-- Claim C1: for an invocation that has been acknowledged but not yet
resolved (pending slot set, promise unsettled), the 120-second (120000 ms)
timeout rejects the promise with the timeout error — a `Failure(Timeout)`
outcome — clears the pending slot, and any completion signal arriving
afterwards is a no-op that leaves the finalized outcome (and the whole
adapter state) unchanged. -/
theorem timeout_finalizes_once (st : AdapterState)
    (hres : st.resolveSet = true) (hset : st.settled = none) :
    generateTimeoutMillis = 120 * 1000 ∧
    (adapterStep st AdapterEvent.timeoutFire).settled =
      some (GenOutcome.failure "Generation timed out after 2 minutes") ∧
    (adapterStep st AdapterEvent.timeoutFire).resolveSet = false ∧
    (adapterStep st AdapterEvent.timeoutFire).rejectSet = false ∧
    (∀ msg : CompletionMsg,
      adapterStep (adapterStep st AdapterEvent.timeoutFire) (AdapterEvent.callback msg) =
        adapterStep st AdapterEvent.timeoutFire) := by
  obtain ⟨r, j, s⟩ := st
  simp only at hres hset
  subst hres hset
  refine ⟨rfl, rfl, rfl, rfl, ?_⟩
  intro msg
  cases hm : msg.error <;> simp [adapterStep, settle, hm]

/-- Claim C1 witness: the timeout at a concrete pending, unsettled state. -/
theorem timeout_finalizes_once_witness :
    (adapterStep ⟨true, true, none⟩ AdapterEvent.timeoutFire).settled =
      some (GenOutcome.failure "Generation timed out after 2 minutes") := by
  exact (timeout_finalizes_once ⟨true, true, none⟩ rfl rfl).2.1

/-- Claim C2: there is a single pending-completion slot — along every event
run `pendingGenerateResolve` and `pendingGenerateReject` are null or set
together — and resolution is idempotent: an immediate response error, a
completion callback, and a (live) timeout all leave the slot cleared, and a
completion callback arriving at a cleared slot changes nothing at all. -/
theorem pending_slot_single_and_idempotent :
    (∀ evs : List AdapterEvent,
      (runAdapter evs).resolveSet = (runAdapter evs).rejectSet) ∧
    (∀ (st : AdapterState) (m : String),
      (adapterStep st (AdapterEvent.response (BridgeResponse.parsedError m))).resolveSet = false ∧
      (adapterStep st (AdapterEvent.response (BridgeResponse.parsedError m))).rejectSet = false) ∧
    (∀ (st : AdapterState) (msg : CompletionMsg),
      (adapterStep st (AdapterEvent.callback msg)).resolveSet = false ∧
      (adapterStep st (AdapterEvent.callback msg)).rejectSet = false) ∧
    (∀ st : AdapterState, st.resolveSet = true →
      (adapterStep st AdapterEvent.timeoutFire).resolveSet = false ∧
      (adapterStep st AdapterEvent.timeoutFire).rejectSet = false) ∧
    (∀ (st : AdapterState) (msg : CompletionMsg),
      st.resolveSet = false → st.rejectSet = false →
        adapterStep st (AdapterEvent.callback msg) = st) := by
  refine ⟨?_, ?_, ?_, ?_, ?_⟩
  · intro evs; exact runAdapter_pair_aux evs adapterInit rfl
  · intro st m
    obtain ⟨r, j, s⟩ := st
    cases s <;> simp [adapterStep, settle]
  · intro st msg
    cases hm : msg.error <;> simp [adapterStep, hm]
  · intro st h
    obtain ⟨r, j, s⟩ := st
    simp only at h
    subst h
    cases s <;> simp [adapterStep, settle]
  · intro st msg h1 h2
    obtain ⟨r, j, s⟩ := st
    simp only at h1 h2
    subst h1 h2
    cases hm : msg.error <;> simp [adapterStep, hm]

/-- Claim C2 witness: a late completion at a concrete already-resolved state
is a no-op. -/
theorem pending_slot_single_and_idempotent_witness :
    adapterStep ⟨false, false, some (GenOutcome.success [])⟩
        (AdapterEvent.callback ⟨some "late", none⟩) =
      ⟨false, false, some (GenOutcome.success [])⟩ := by
  exact pending_slot_single_and_idempotent.2.2.2.2
    ⟨false, false, some (GenOutcome.success [])⟩ ⟨some "late", none⟩ rfl rfl

/-- Claim C3: submitting with text that is empty after trimming fails
synchronously — the selector reports the inline error, no generate event is
dispatched and the page state (in step `source`) is unchanged; with non-empty
trimmed text the submission dispatches and moves the page from `source` to
`generating`. -/
theorem submit_source_guard (st : PageState) (text name url : String)
    (hstep : st.currentStep = Step.source) :
    (jsTrim text = "" →
      sourceSelectorGenerate text name url =
        SubmitResult.rejected "Please provide text to generate flashcards from." ∧
      submitGeneration st text name url =
        (st, some "Please provide text to generate flashcards from.") ∧
      (submitGeneration st text name url).1.currentStep = Step.source) ∧
    (jsTrim text ≠ "" →
      (submitGeneration st text name url).2 = none ∧
      (submitGeneration st text name url).1.currentStep = Step.generating) := by
  constructor
  · intro h
    simp [sourceSelectorGenerate, submitGeneration, h, hstep]
  · intro h
    simp [sourceSelectorGenerate, submitGeneration, handleGenerateEntry, h]

/-- Claim C3 witness: a whitespace-only and a non-empty submission at a
concrete page state. -/
theorem submit_source_guard_witness :
    (submitGeneration samplePage "  " "" "").1.currentStep = Step.source ∧
    (submitGeneration samplePage "hello" "" "").1.currentStep = Step.generating := by
  have h1 := submit_source_guard samplePage "  " "" "" rfl
  have h2 := submit_source_guard samplePage "hello" "" "" rfl
  exact ⟨(h1.1 (by decide)).2.2, (h2.2 (by decide)).2⟩

/-- Claim C5: when generation resolves successfully with cards produced by
the external worker (each `status = Pending`), the returned sequence becomes
the page's `cards` (all still Pending), the step goes `generating` →
`review`, and a `saveSession` with the new cards, source name and source text
immediately follows. -/
theorem generate_success_review (st : PageState) (text name url : String)
    (gen : List SimpleCard) (hgen : specGeneratedCards gen) :
    (handleGenerateEntry st text name url).currentStep = Step.generating ∧
    (handleGenerate st text name url (GenOutcome.success gen)).1.cards = gen ∧
    (∀ c ∈ (handleGenerate st text name url (GenOutcome.success gen)).1.cards,
      c.status = 0) ∧
    (handleGenerate st text name url (GenOutcome.success gen)).1.currentStep = Step.review ∧
    (handleGenerate st text name url (GenOutcome.success gen)).2 =
      [RpcCall.save ⟨name, text, gen⟩] := by
  refine ⟨rfl, rfl, ?_, rfl, rfl⟩
  simpa [handleGenerate, handleGenerateEntry] using hgen

/-- Claim C5 witness: a concrete successful generation with one Pending
card. -/
theorem generate_success_review_witness :
    (handleGenerate samplePage "text" "name" ""
      (GenOutcome.success [sampleCard "1" 0])).1.currentStep = Step.review := by
  exact (generate_success_review samplePage "text" "name" "" [sampleCard "1" 0]
    (by intro c hc; simp only [List.mem_singleton] at hc; subst hc; rfl)).2.2.2.1

/-- Claim C6: on any generation failure the step falls back to `source` with
the error surfaced, the submitted `sourceText` and `sourceName` are preserved
unchanged, no RPC is issued, and the `SourceSelector` re-rendered from those
fields starts with the same text and name as initial values. -/
theorem generate_failure_preserves_source (st : PageState) (text name url e : String) :
    (handleGenerate st text name url (GenOutcome.failure e)).1.currentStep = Step.source ∧
    (handleGenerate st text name url (GenOutcome.failure e)).1.error = some e ∧
    (handleGenerate st text name url (GenOutcome.failure e)).1.sourceText = text ∧
    (handleGenerate st text name url (GenOutcome.failure e)).1.sourceName = name ∧
    (handleGenerate st text name url (GenOutcome.failure e)).2 = [] ∧
    (initSourceSelector
      (handleGenerate st text name url (GenOutcome.failure e)).1.sourceText
      (handleGenerate st text name url (GenOutcome.failure e)).1.sourceName
      (handleGenerate st text name url (GenOutcome.failure e)).1.sourceUrl).textInput = text ∧
    (initSourceSelector
      (handleGenerate st text name url (GenOutcome.failure e)).1.sourceText
      (handleGenerate st text name url (GenOutcome.failure e)).1.sourceName
      (handleGenerate st text name url (GenOutcome.failure e)).1.sourceUrl).sourceName = name := by
  exact ⟨rfl, rfl, rfl, rfl, rfl, rfl, rfl⟩

/-- Claim C4: in step `review`, a commit with zero Approved cards is refused —
the step does not change, the error message is set, no approved subset is
computed and no RPC at all is issued; with at least one Approved card the
step moves to `importing` and the `importApprovedCards` RPC is issued with
the approved subset. -/
theorem import_zero_approved_guard (st : PageState)
    (result : Except String ImportRpcResult) (hstep : st.currentStep = Step.review) :
    (approvedCount st = 0 →
      (handleImportEntry st).1.currentStep = Step.review ∧
      (handleImportEntry st).1.error = some "No cards have been approved yet." ∧
      (handleImportEntry st).2 = none ∧
      (handleImport st result).2 = []) ∧
    (1 ≤ approvedCount st →
      (handleImportEntry st).1.currentStep = Step.importing ∧
      (handleImportEntry st).2 = some (st.cards.filter (fun c => c.status == 1)) ∧
      (handleImport st result).2.head? =
        some (RpcCall.importCards (st.cards.filter (fun c => c.status == 1))
          st.selectedDeckId [])) := by
  constructor
  · intro h
    refine ⟨?_, ?_, ?_, ?_⟩ <;> simp [handleImportEntry, handleImport, h, hstep]
  · intro h
    have hne : ¬approvedCount st = 0 := by omega
    refine ⟨?_, ?_, ?_⟩ <;> cases result <;>
      simp [handleImportEntry, handleImport, hne]

/-- Claim C4 witness: the guard at a concrete zero-approved and a concrete
one-approved review page. -/
theorem import_zero_approved_guard_witness :
    (handleImportEntry reviewPageNoApproved).2 = none ∧
    (handleImportEntry reviewPageApproved).1.currentStep = Step.importing := by
  have h1 := import_zero_approved_guard reviewPageNoApproved (Except.ok ⟨0, 0⟩) rfl
  have h2 := import_zero_approved_guard reviewPageApproved (Except.ok ⟨0, 0⟩) rfl
  exact ⟨(h1.1 (by decide)).2.2.1, (h2.2 (by decide)).1⟩

/-- Claim C7: once the import RPC has been issued, a successful result stores
the counts, moves the step to `done` and issues `clearSession`; a failed
result stores the error, falls back to `review`, leaves the cards unchanged
and does not issue `clearSession`. -/
theorem import_outcome_transitions (st : PageState) (r : ImportRpcResult) (e : String)
    (happ : 1 ≤ approvedCount st) :
    ((handleImport st (Except.ok r)).1.currentStep = Step.done ∧
     (handleImport st (Except.ok r)).1.importResult =
       some (r.importedCount, r.duplicateCount) ∧
     (handleImport st (Except.ok r)).2 =
       [RpcCall.importCards (st.cards.filter (fun c => c.status == 1))
          st.selectedDeckId [],
        RpcCall.clear]) ∧
    ((handleImport st (Except.error e)).1.currentStep = Step.review ∧
     (handleImport st (Except.error e)).1.error = some e ∧
     (handleImport st (Except.error e)).1.cards = st.cards ∧
     RpcCall.clear ∉ (handleImport st (Except.error e)).2) := by
  have hne : ¬approvedCount st = 0 := by omega
  refine ⟨⟨?_, ?_, ?_⟩, ?_, ?_, ?_, ?_⟩ <;>
    simp [handleImport, handleImportEntry, hne]

/-- Claim C7 witness: a concrete successful and failed import at a
one-approved review page. -/
theorem import_outcome_transitions_witness :
    (handleImport reviewPageApproved (Except.ok ⟨1, 0⟩)).1.currentStep = Step.done ∧
    (handleImport reviewPageApproved (Except.error "store unreachable")).1.currentStep =
      Step.review := by
  have h := import_outcome_transitions reviewPageApproved ⟨1, 0⟩ "store unreachable"
    (by decide)
  exact ⟨h.1.1, h.2.1⟩

/-- Claim C9: the import RPC receives exactly the Approved subset — every
card in the issued list has status 1, every status-1 card of the collection
is in it, and the RPC issued by `handleImport` carries precisely that
list. -/
theorem import_payload_approved_only (st : PageState)
    (result : Except String ImportRpcResult) (happ : 1 ≤ approvedCount st) :
    (handleImportEntry st).2 = some (st.cards.filter (fun c => c.status == 1)) ∧
    (∀ c ∈ st.cards.filter (fun c => c.status == 1), c.status = 1) ∧
    (∀ c ∈ st.cards, c.status = 1 → c ∈ st.cards.filter (fun c => c.status == 1)) ∧
    (∀ c ∈ st.cards, c.status ≠ 1 → c ∉ st.cards.filter (fun c => c.status == 1)) ∧
    (handleImport st result).2.head? =
      some (RpcCall.importCards (st.cards.filter (fun c => c.status == 1))
        st.selectedDeckId []) := by
  have hne : ¬approvedCount st = 0 := by omega
  refine ⟨?_, ?_, ?_, ?_, ?_⟩
  · simp [handleImportEntry, hne]
  · intro c hc
    simp only [List.mem_filter, beq_iff_eq] at hc
    exact hc.2
  · intro c hc h1
    simp only [List.mem_filter, beq_iff_eq]
    exact ⟨hc, h1⟩
  · intro c _ h1
    simp only [List.mem_filter, beq_iff_eq]
    intro hmem
    exact h1 hmem.2
  · cases result <;> simp [handleImport, handleImportEntry, hne]

/-- Claim C9 witness: at a concrete review page the issued payload is exactly
the approved card. -/
theorem import_payload_approved_only_witness :
    (handleImportEntry reviewPageApproved).2 = some [sampleCard "1" 1] := by
  exact ((import_payload_approved_only reviewPageApproved (Except.ok ⟨1, 0⟩)
    (by decide)).1).trans (by rfl)

/-- Claim C8: `approveAll` sets every card's status to 1 and `rejectAll` sets
every card's status to 2, regardless of prior status, preserving length,
order and every other card field. -/
theorem bulk_status_overrides (st : PageState) (i : Nat) :
    (approveAll st).1.cards.length = st.cards.length ∧
    (rejectAll st).1.cards.length = st.cards.length ∧
    (approveAll st).1.cards.get? i =
      (st.cards.get? i).map
        (fun c => ⟨c.id, c.cardType, c.front, c.back, c.suggestedTags, 1⟩) ∧
    (rejectAll st).1.cards.get? i =
      (st.cards.get? i).map
        (fun c => ⟨c.id, c.cardType, c.front, c.back, c.suggestedTags, 2⟩) := by
  refine ⟨?_, ?_, ?_, ?_⟩ <;> simp [approveAll, rejectAll, List.getElem?_map]

/-- Claim C10: `handleCardUpdate` preserves the collection's length and
order; the card whose id matches gets exactly the new status with every other
field unchanged, cards with a different id are unchanged, and a missing id
leaves the collection unchanged. -/
theorem card_update_frame (st : PageState) (cardId : String) (status : Nat) (i : Nat) :
    (handleCardUpdate st cardId status).1.cards.length = st.cards.length ∧
    (handleCardUpdate st cardId status).1.cards.get? i =
      (st.cards.get? i).map
        (fun c => if c.id = cardId
          then ⟨c.id, c.cardType, c.front, c.back, c.suggestedTags, status⟩ else c) ∧
    ((∀ c ∈ st.cards, c.id ≠ cardId) →
      (handleCardUpdate st cardId status).1.cards = st.cards) := by
  refine ⟨?_, ?_, ?_⟩
  · simp [handleCardUpdate]
  · simp [handleCardUpdate, List.getElem?_map]
  · intro h
    show st.cards.map _ = st.cards
    have hid : ∀ c ∈ st.cards,
        (if c.id = cardId then ({ c with status := status } : SimpleCard) else c) = c := by
      intro c hc
      simp [h c hc]
    rw [List.map_congr_left hid, List.map_id']

/-- Claim C10 witness: updating a missing id at a concrete page leaves the
cards unchanged. -/
theorem card_update_frame_witness :
    (handleCardUpdate reviewPageNoApproved "zzz" 1).1.cards = reviewPageNoApproved.cards := by
  exact (card_update_frame reviewPageNoApproved "zzz" 1 0).2.2 (by decide)
